import Mathlib

/-!
Verification of the purpleAirRelayControl core against its design notes.

The development shallowly embeds the authoritative C++ sources:
  * `src/arduino/VentilationControl.cpp` — the hysteresis decision function
    (the `src/VentilationControl.cpp` revision, which lacks the unknown-AQI
    sentinel check, is embedded separately as `LegacyVentilationControl`);
  * `src/PurpleAirSensor.cpp` — the acquisition scheduler `updateAQI`, the
    payload extraction paths of `getLocalAirQuality` / `getAPIAirQuality`,
    and the numeric core `calculateAQI` / `linearInterpolation`.

Modelling conventions:
  * C++ `double` arithmetic is embedded over `ℚ`; every breakpoint constant
    of the source is an exactly representable decimal, so the piecewise
    linear algebra is faithful to the algorithm.
  * `unsigned long` (32-bit) timestamp subtraction is embedded as wrapping
    subtraction modulo 2^32 (`sub32`).
  * The network pollers are oracles: `updateAQI` takes the value each poller
    would return (`-1` on failure, per the source) as an explicit argument,
    and additionally reports which pollers were actually invoked.
  * Parsed JSON member values are embedded as `JVal`: a member can be
    absent, `null`, or a number.  Per the platform JSON library used by the
    source, `containsKey` is true for a `null` member and `as<double>()`
    of a non-numeric value is `0`.
-/

/-- Switch states, from `constants.h`: OFF = 0, PURPLEAIR = 1, ON = 2. -/
inductive SwitchState where
  | OFF
  | PURPLEAIR
  | ON
  deriving DecidableEq

/-- From `arduino_secrets_sample.h` / `user_settings.h`: enable ventilation below this AQI. -/
def ENABLE_THRESHOLD : Int := 120

/-- From `arduino_secrets_sample.h` / `user_settings.h`: disable ventilation at or above this AQI. -/
def DISABLE_THRESHOLD : Int := 130

namespace VentilationControl

/-- Embeds `VentilationControl::getVentilationState` from
`src/arduino/VentilationControl.cpp` (lines 34-55).  `true` = Ventilating,
`false` = Idle, matching the C++ `bool` return. -/
def getVentilationState (switchState : SwitchState) (currentState : Bool)
    (airQuality : Int) : Bool :=
  if switchState = SwitchState.ON then
    true
  else if switchState = SwitchState.OFF then
    false
  else
    if airQuality = -1 then
      currentState
    else if airQuality < ENABLE_THRESHOLD then
      true
    else if airQuality ≥ DISABLE_THRESHOLD then
      false
    else
      currentState

end VentilationControl

namespace LegacyVentilationControl

/-- Embeds `VentilationControl::getVentilationState` from the earlier
revision `src/VentilationControl.cpp` (lines 33-50), which has no
unknown-AQI sentinel check. -/
def getVentilationState (switchState : SwitchState) (currentState : Bool)
    (airQuality : Int) : Bool :=
  if switchState = SwitchState.ON then
    true
  else if switchState = SwitchState.OFF then
    false
  else
    if airQuality < ENABLE_THRESHOLD then
      true
    else if airQuality ≥ DISABLE_THRESHOLD then
      false
    else
      currentState

end LegacyVentilationControl

/-- The ventilation decision as the spec words it (section 4.6 / section 8
of the design notes), for comparison with the source function: `ForceOn` →
Ventilating; `ForceOff` → Idle; `Auto`: unknown AQI → retain previous
state, AQI < enable-threshold → Ventilating, AQI ≥ disable-threshold →
Idle, strictly between → retain previous state. -/
def specVentilationDecision (switchState : SwitchState) (previous : Bool)
    (airQuality : Int) : Bool :=
  match switchState with
  | SwitchState.ON => true
  | SwitchState.OFF => false
  | SwitchState.PURPLEAIR =>
    if airQuality = -1 then previous
    else if airQuality < ENABLE_THRESHOLD then true
    else if DISABLE_THRESHOLD ≤ airQuality then false
    else previous

namespace PurpleAirSensor

/-- Embeds `PurpleAirSensor::linearInterpolation` from
`src/PurpleAirSensor.cpp` (lines 623-638), over `ℚ` in place of `double`. -/
def linearInterpolation (cLow cHigh iLow iHigh pointX : ℚ) (trim : Bool) : ℚ :=
  let p1 := if trim ∧ pointX > cHigh then cHigh else pointX
  let p2 := if trim ∧ p1 < cLow then cLow else p1
  if cHigh = cLow then
    if p2 ≥ cLow then iHigh else iLow
  else
    (iHigh - iLow) / (cHigh - cLow) * (p2 - cLow) + iLow

/-- Embeds `PurpleAirSensor::calculateAQI` from `src/PurpleAirSensor.cpp`
(lines 610-621): EPA PM2.5 breakpoint dispatch by descending threshold. -/
def calculateAQI (pm2p5 : ℚ) : ℚ :=
  if pm2p5 < 0 then 0
  else if pm2p5 > 350.5 then linearInterpolation 350.5 500.4 401.0 500.0 pm2p5 true
  else if pm2p5 > 250.5 then linearInterpolation 250.5 350.4 301.0 400.0 pm2p5 false
  else if pm2p5 > 150.5 then linearInterpolation 150.5 250.4 201.0 300.0 pm2p5 false
  else if pm2p5 > 55.5 then linearInterpolation 55.5 150.4 151.0 200.0 pm2p5 false
  else if pm2p5 > 35.5 then linearInterpolation 35.5 55.4 101.0 150.0 pm2p5 false
  else if pm2p5 > 12.1 then linearInterpolation 12.1 35.4 51.0 100.0 pm2p5 false
  else linearInterpolation 0.0 12.0 0.0 50.0 pm2p5 false

end PurpleAirSensor

/-- From `constants.h`: minimum delay between local sensor checks (1 min, ms). -/
def LOCAL_SENSOR_DELAY : Nat := 1000 * 60

/-- From `constants.h`: minimum delay between PurpleAir API checks (20 min, ms). -/
def PURPLE_AIR_DELAY : Nat := 1000 * 60 * 20

/-- Wrapping subtraction of 32-bit `unsigned long` timestamps, as performed
by `masterCurrentTime - lastLocalCheckTime` in the source. -/
def sub32 (t last : Nat) : Nat :=
  (t % 2 ^ 32 + 2 ^ 32 - last % 2 ^ 32) % 2 ^ 32

namespace PurpleAirSensor

/-- The configuration fields of `PurpleAirSensor` that `updateAQI` consults:
whether `localServerIP` is non-null and non-empty (`isLocalConfigured`),
whether `apiKey` is non-null and non-empty, and `numSensors`. -/
structure Config where
  localConfigured : Bool
  apiKeyNonEmpty : Bool
  numSensors : Int
  deriving DecidableEq

/-- The mutable fields of `PurpleAirSensor` touched by `updateAQI`
(`src/arduino/PurpleAirSensor.h`, lines 58-61). -/
structure State where
  lastLocalCheckTime : Nat
  lastApiCheckTime : Nat
  currentAQI : Int
  localSensorAvailable : Bool
  deriving DecidableEq

/-- Embeds `PurpleAirSensor::isLocalConfigured` (`src/PurpleAirSensor.cpp`,
lines 640-642). -/
def isLocalConfigured (cfg : Config) : Bool :=
  cfg.localConfigured

/-- Embeds the `apiConfigured` test of `updateAQI` (`src/PurpleAirSensor.cpp`,
line 131): non-empty key and at least one sensor ID. -/
def apiConfigured (cfg : Config) : Bool :=
  cfg.apiKeyNonEmpty && decide (cfg.numSensors > 0)

/-- The observable outcome of one `updateAQI` call: its return value, the
post-state, and which pollers were actually invoked during the call. -/
structure UpdateOutcome where
  updated : Bool
  state : State
  attemptedLocal : Bool
  attemptedApi : Bool
  deriving DecidableEq

/-- The API phase of `updateAQI` (`src/PurpleAirSensor.cpp`, lines 131-149),
reached when the local branch did not return early.  `attemptedLocal` is the
flag of the same name in the source (the local poll was attempted and, on
this path, failed); `apiResult` is the value `getAPIAirQuality()` would
return. -/
def updateApiPhase (cfg : Config) (s : State) (masterCurrentTime : Nat)
    (apiResult : Int) (attemptedLocal : Bool) : UpdateOutcome :=
  if apiConfigured cfg ∧ (¬ isLocalConfigured cfg ∨ attemptedLocal)
      ∧ sub32 masterCurrentTime s.lastApiCheckTime ≥ PURPLE_AIR_DELAY then
    if apiResult ≥ 0 then
      { updated := true
        state := { s with lastApiCheckTime := masterCurrentTime, currentAQI := apiResult }
        attemptedLocal := attemptedLocal
        attemptedApi := true }
    else
      { updated := false
        state := { s with lastApiCheckTime := masterCurrentTime }
        attemptedLocal := attemptedLocal
        attemptedApi := true }
  else
    { updated := false, state := s
      attemptedLocal := attemptedLocal, attemptedApi := false }

/-- Embeds `PurpleAirSensor::updateAQI` (`src/PurpleAirSensor.cpp`,
lines 102-162).  `localResult` and `apiResult` are the values the two
pollers would return if invoked (`-1` on failure); `getLocalAirQuality`
leaves `localSensorAvailable` true exactly on success. -/
def updateAQI (cfg : Config) (s : State) (masterCurrentTime : Nat)
    (localResult apiResult : Int) : UpdateOutcome :=
  if isLocalConfigured cfg
      ∧ sub32 masterCurrentTime s.lastLocalCheckTime ≥ LOCAL_SENSOR_DELAY then
    if localResult ≥ 0 then
      { updated := true
        state := { lastLocalCheckTime := masterCurrentTime
                   lastApiCheckTime := masterCurrentTime
                   currentAQI := localResult
                   localSensorAvailable := true }
        attemptedLocal := true
        attemptedApi := false }
    else
      updateApiPhase cfg
        { s with lastLocalCheckTime := masterCurrentTime, localSensorAvailable := false }
        masterCurrentTime apiResult true
  else
    updateApiPhase cfg s masterCurrentTime apiResult false

/-- A parsed JSON member value as the platform JSON library presents it to
the extraction code: the member can be absent, `null`, or a number. -/
inductive JVal where
  | absent
  | null
  | num (q : ℚ)
  deriving DecidableEq

/-- `containsKey` of the platform JSON library: true when the member is
present, including when its value is `null`. -/
def JVal.present : JVal → Bool
  | JVal.absent => false
  | _ => true

/-- `as<double>()` of the platform JSON library: the numeric value, or `0`
for `null` and other non-numeric values. -/
def JVal.asDouble : JVal → ℚ
  | JVal.num q => q
  | _ => 0

/-- The `is<float>() || is<double>() || is<int>()` type test performed by
the API parsing code before reading a PM2.5 cell. -/
def JVal.isNumber : JVal → Bool
  | JVal.num _ => true
  | _ => false

/-- One record of a local-sensor JSON array or of a nested `results` array
(`src/PurpleAirSensor.cpp`, lines 313-364): `sensorId` is `some i` when the
record carries an `ID`/`SensorId` member with value `i`; the two `JVal`
fields are the record's `pm2.5_10minute` and `PM2_5Value` members. -/
structure SensorRecord where
  sensorId : Option Int
  pm25_10minute : JVal
  pm25Value : JVal
  deriving DecidableEq

/-- The allow-list test of the local array path (`src/PurpleAirSensor.cpp`,
lines 318-327): use the record when no sensor IDs are configured, or when
its ID is among the configured IDs. -/
def useThisSensor (ids : List Int) (sid : Int) : Bool :=
  ids.isEmpty || ids.contains sid

/-- One step of the local JSON-array accumulation
(`src/PurpleAirSensor.cpp`, lines 316-335): records without an
`ID`/`SensorId` member are skipped; a used record contributes its
`pm2.5_10minute` member if present, else its `PM2_5Value` member if
present, to the running sum and count. -/
def localArrayStep (ids : List Int) (acc : ℚ × Nat) (r : SensorRecord) : ℚ × Nat :=
  match r.sensorId with
  | none => acc
  | some sid =>
    if useThisSensor ids sid then
      if r.pm25_10minute.present then
        (acc.1 + r.pm25_10minute.asDouble, acc.2 + 1)
      else if r.pm25Value.present then
        (acc.1 + r.pm25Value.asDouble, acc.2 + 1)
      else acc
    else acc

/-- The running `(sumPm2p5, validSensorCount)` of the local JSON-array path
over a whole payload. -/
def localArraySumCount (ids : List Int) (recs : List SensorRecord) : ℚ × Nat :=
  recs.foldl (localArrayStep ids) (0, 0)

/-- The local JSON-array extraction result (`src/PurpleAirSensor.cpp`,
lines 379-387): the average PM2.5 when the valid count is positive, `none`
(no data) otherwise. -/
def localArrayExtract (ids : List Int) (recs : List SensorRecord) : Option ℚ :=
  let sc := localArraySumCount ids recs
  if sc.2 > 0 then some (sc.1 / (sc.2 : ℚ)) else none

/-- The allow-list test of the nested `results` path
(`src/PurpleAirSensor.cpp`, lines 344-355): every record is used when no
sensor IDs are configured; otherwise only records whose `ID` member matches
a configured ID. -/
def resultsUse (ids : List Int) (sid : Option Int) : Bool :=
  if ids.isEmpty then true
  else
    match sid with
    | some i => ids.contains i
    | none => false

/-- One step of the nested `results` accumulation
(`src/PurpleAirSensor.cpp`, lines 343-364). -/
def resultsStep (ids : List Int) (acc : ℚ × Nat) (r : SensorRecord) : ℚ × Nat :=
  if resultsUse ids r.sensorId then
    if r.pm25_10minute.present then
      (acc.1 + r.pm25_10minute.asDouble, acc.2 + 1)
    else if r.pm25Value.present then
      (acc.1 + r.pm25Value.asDouble, acc.2 + 1)
    else acc
  else acc

/-- The running `(sumPm2p5, validSensorCount)` of the nested `results`
path over a whole payload. -/
def resultsSumCount (ids : List Int) (recs : List SensorRecord) : ℚ × Nat :=
  recs.foldl (resultsStep ids) (0, 0)

/-- The nested `results` extraction result (`src/PurpleAirSensor.cpp`,
lines 379-387). -/
def resultsExtract (ids : List Int) (recs : List SensorRecord) : Option ℚ :=
  let sc := resultsSumCount ids recs
  if sc.2 > 0 then some (sc.1 / (sc.2 : ℚ)) else none

/-- One step of the API data-rows accumulation (`src/PurpleAirSensor.cpp`,
lines 555-587).  A row is `none` when the item in `data` is not an array
(skipped); otherwise the row is skipped when it is too short for the PM2.5
column, when the cell is not a number, or when the value is negative. -/
def apiDataStep (pmIdx : Nat) (acc : ℚ × Nat) (row : Option (List JVal)) : ℚ × Nat :=
  match row with
  | none => acc
  | some cells =>
    if pmIdx ≥ cells.length then acc
    else
      let v := cells.getD pmIdx JVal.absent
      if ¬ v.isNumber then acc
      else if v.asDouble < 0 then acc
      else (acc.1 + v.asDouble, acc.2 + 1)

/-- The running `(totalPM25, validSensorCount)` of the API data-rows path. -/
def apiDataSumCount (pmIdx : Nat) (rows : List (Option (List JVal))) : ℚ × Nat :=
  rows.foldl (apiDataStep pmIdx) (0, 0)

/-- The API data-rows extraction result (`src/PurpleAirSensor.cpp`,
lines 590-598): the average PM2.5 when the valid count is positive, `none`
(no data, `resultAQI = -1`) otherwise. -/
def apiDataExtract (pmIdx : Nat) (rows : List (Option (List JVal))) : Option ℚ :=
  let sc := apiDataSumCount pmIdx rows
  if sc.2 > 0 then some (sc.1 / (sc.2 : ℚ)) else none

/-- A row survives the API data-rows filters exactly when it is an array,
long enough for the PM2.5 column, and carries a non-negative number there. -/
def apiRowGood (pmIdx : Nat) (row : Option (List JVal)) : Bool :=
  match row with
  | none => false
  | some cells =>
    decide (pmIdx < cells.length) && (cells.getD pmIdx JVal.absent).isNumber
      && decide (0 ≤ (cells.getD pmIdx JVal.absent).asDouble)

end PurpleAirSensor

/-- C2: for every switch position, prior ventilation state and AQI input,
the authoritative decision function `getVentilationState` of
`src/arduino/VentilationControl.cpp` agrees with the spec's transition
rule: `ForceOn` → Ventilating, `ForceOff` → Idle, and in Auto mode the
prior state on the unknown sentinel, Ventilating below the enable
threshold, Idle at or above the disable threshold, and the prior state in
the dead band between them. -/
theorem c2_decision_matches_spec (sw : SwitchState) (prev : Bool) (aqi : Int) :
    VentilationControl.getVentilationState sw prev aqi
      = specVentilationDecision sw prev aqi := by
  cases sw <;>
    simp [VentilationControl.getVentilationState, specVentilationDecision,
      ge_iff_le]

/-- C10: in the authoritative decision function, the unknown-AQI sentinel
in Auto mode is exactly `-1`: any other negative AQI is compared against
the thresholds as if valid and, being below the enable threshold, yields
Ventilating rather than the prior state. -/
theorem c10_sentinel_is_exactly_neg_one (prev : Bool) (aqi : Int)
    (hneg : aqi < 0) :
    VentilationControl.getVentilationState SwitchState.PURPLEAIR prev aqi
      = if aqi = -1 then prev else true := by
  have hlt : aqi < ENABLE_THRESHOLD := by
    simp only [ENABLE_THRESHOLD]
    omega
  simp [VentilationControl.getVentilationState, hlt]

/-- Witness for C10 at the concrete input `aqi = -2`, `prev = false`. -/
theorem c10_witness :
    (-2 : Int) < 0 ∧
      VentilationControl.getVentilationState SwitchState.PURPLEAIR false (-2)
        = if (-2 : Int) = -1 then false else true :=
  ⟨by decide, c10_sentinel_is_exactly_neg_one false (-2) (by decide)⟩

/-- C4: whenever the local poll is attempted (local configured and due) and
returns a valid AQI, `updateAQI` adopts it as `currentAQI`, stamps
`lastApiCheckTime` with the current time even though the API was not
queried, reports an update, and performs no API poll attempt. -/
theorem c4_local_success_short_circuits (cfg : PurpleAirSensor.Config)
    (s : PurpleAirSensor.State) (t : Nat) (localResult apiResult : Int)
    (hloc : PurpleAirSensor.isLocalConfigured cfg = true)
    (hdue : sub32 t s.lastLocalCheckTime ≥ LOCAL_SENSOR_DELAY)
    (hok : localResult ≥ 0) :
    (PurpleAirSensor.updateAQI cfg s t localResult apiResult).updated = true ∧
    (PurpleAirSensor.updateAQI cfg s t localResult apiResult).state.currentAQI
      = localResult ∧
    (PurpleAirSensor.updateAQI cfg s t localResult apiResult).state.lastApiCheckTime
      = t ∧
    (PurpleAirSensor.updateAQI cfg s t localResult apiResult).attemptedApi
      = false := by
  simp [PurpleAirSensor.updateAQI, hloc, hdue, hok]

/-- Witness for C4: local configured and due at `t = 60000`, local poll
returns AQI 42. -/
theorem c4_witness :
    PurpleAirSensor.isLocalConfigured ⟨true, true, 1⟩ = true ∧
    sub32 60000 (PurpleAirSensor.State.mk 0 0 (-1) false).lastLocalCheckTime
      ≥ LOCAL_SENSOR_DELAY ∧
    (42 : Int) ≥ 0 ∧
    ((PurpleAirSensor.updateAQI ⟨true, true, 1⟩ ⟨0, 0, -1, false⟩ 60000 42 (-1)).updated
        = true ∧
      (PurpleAirSensor.updateAQI ⟨true, true, 1⟩ ⟨0, 0, -1, false⟩ 60000 42 (-1)).state.currentAQI
        = 42 ∧
      (PurpleAirSensor.updateAQI ⟨true, true, 1⟩ ⟨0, 0, -1, false⟩ 60000 42 (-1)).state.lastApiCheckTime
        = 60000 ∧
      (PurpleAirSensor.updateAQI ⟨true, true, 1⟩ ⟨0, 0, -1, false⟩ 60000 42 (-1)).attemptedApi
        = false) :=
  ⟨rfl, by decide, by decide,
    c4_local_success_short_circuits ⟨true, true, 1⟩ ⟨0, 0, -1, false⟩ 60000 42 (-1)
      rfl (by decide) (by decide)⟩

/-- C5: in any cycle in which every poller that was actually invoked
failed (and hence in any cycle in which no poll produced a valid AQI),
`updateAQI` leaves `currentAQI` unchanged. -/
theorem c5_failed_cycle_preserves_current_aqi (cfg : PurpleAirSensor.Config)
    (s : PurpleAirSensor.State) (t : Nat) (localResult apiResult : Int)
    (hl : (PurpleAirSensor.updateAQI cfg s t localResult apiResult).attemptedLocal
        = true → localResult < 0)
    (ha : (PurpleAirSensor.updateAQI cfg s t localResult apiResult).attemptedApi
        = true → apiResult < 0) :
    (PurpleAirSensor.updateAQI cfg s t localResult apiResult).state.currentAQI
      = s.currentAQI := by
  unfold PurpleAirSensor.updateAQI PurpleAirSensor.updateApiPhase at *
  split_ifs at * <;> simp_all <;> omega

/-- Witness for C5: nothing is due at `t = 5`, so both pollers are
uninvoked and the hypotheses hold vacuously; the held AQI 42 survives. -/
theorem c5_witness :
    ((PurpleAirSensor.updateAQI ⟨true, true, 1⟩ ⟨0, 0, 42, false⟩ 5 7 7).attemptedLocal
        = true → (7 : Int) < 0) ∧
    ((PurpleAirSensor.updateAQI ⟨true, true, 1⟩ ⟨0, 0, 42, false⟩ 5 7 7).attemptedApi
        = true → (7 : Int) < 0) ∧
    (PurpleAirSensor.updateAQI ⟨true, true, 1⟩ ⟨0, 0, 42, false⟩ 5 7 7).state.currentAQI
      = 42 :=
  ⟨by decide, by decide,
    c5_failed_cycle_preserves_current_aqi ⟨true, true, 1⟩ ⟨0, 0, 42, false⟩ 5 7 7
      (by decide) (by decide)⟩

/-- C8: when neither interval has elapsed, `updateAQI` is a no-op: no
poller is invoked, the call returns false, and the whole state — in
particular `currentAQI` and both timestamps — is unchanged. -/
theorem c8_within_window_is_noop (cfg : PurpleAirSensor.Config)
    (s : PurpleAirSensor.State) (t : Nat) (localResult apiResult : Int)
    (hl : sub32 t s.lastLocalCheckTime < LOCAL_SENSOR_DELAY)
    (ha : sub32 t s.lastApiCheckTime < PURPLE_AIR_DELAY) :
    (PurpleAirSensor.updateAQI cfg s t localResult apiResult).updated = false ∧
    (PurpleAirSensor.updateAQI cfg s t localResult apiResult).state = s ∧
    (PurpleAirSensor.updateAQI cfg s t localResult apiResult).attemptedLocal
      = false ∧
    (PurpleAirSensor.updateAQI cfg s t localResult apiResult).attemptedApi
      = false := by
  have hl' : ¬ (PurpleAirSensor.isLocalConfigured cfg
      ∧ sub32 t s.lastLocalCheckTime ≥ LOCAL_SENSOR_DELAY) :=
    fun h => absurd h.2 (not_le.mpr hl)
  have ha' : ¬ (PurpleAirSensor.apiConfigured cfg
      ∧ (¬ PurpleAirSensor.isLocalConfigured cfg ∨ (false : Bool))
      ∧ sub32 t s.lastApiCheckTime ≥ PURPLE_AIR_DELAY) :=
    fun h => absurd h.2.2 (not_le.mpr ha)
  simp only [PurpleAirSensor.updateAQI, PurpleAirSensor.updateApiPhase,
    if_neg hl', if_neg ha']
  exact ⟨trivial, trivial, trivial, trivial⟩

/-- Witness for C8 at `t = 5` with both timestamps at 0: both windows are
still open, and the call changes nothing. -/
theorem c8_witness :
    sub32 5 (PurpleAirSensor.State.mk 0 0 42 false).lastLocalCheckTime
      < LOCAL_SENSOR_DELAY ∧
    sub32 5 (PurpleAirSensor.State.mk 0 0 42 false).lastApiCheckTime
      < PURPLE_AIR_DELAY ∧
    ((PurpleAirSensor.updateAQI ⟨true, true, 1⟩ ⟨0, 0, 42, false⟩ 5 7 7).updated
        = false ∧
      (PurpleAirSensor.updateAQI ⟨true, true, 1⟩ ⟨0, 0, 42, false⟩ 5 7 7).state
        = ⟨0, 0, 42, false⟩ ∧
      (PurpleAirSensor.updateAQI ⟨true, true, 1⟩ ⟨0, 0, 42, false⟩ 5 7 7).attemptedLocal
        = false ∧
      (PurpleAirSensor.updateAQI ⟨true, true, 1⟩ ⟨0, 0, 42, false⟩ 5 7 7).attemptedApi
        = false) :=
  ⟨by decide, by decide,
    c8_within_window_is_noop ⟨true, true, 1⟩ ⟨0, 0, 42, false⟩ 5 7 7
      (by decide) (by decide)⟩

/-- C1 counterexample: at `t = 1200000` with the local source configured
and polled at `t` (so not due) and the API configured and due
(`lastApiCheckTime = 0`), `updateAQI` makes no API poll attempt and leaves
`lastApiCheckTime` unstamped, contrary to the claim that every such state
polls the API. -/
theorem c1_counterexample :
    PurpleAirSensor.isLocalConfigured ⟨true, true, 1⟩ = true ∧
    sub32 1200000 (PurpleAirSensor.State.mk 1200000 0 (-1) false).lastLocalCheckTime
      < LOCAL_SENSOR_DELAY ∧
    PurpleAirSensor.apiConfigured ⟨true, true, 1⟩ = true ∧
    sub32 1200000 (PurpleAirSensor.State.mk 1200000 0 (-1) false).lastApiCheckTime
      ≥ PURPLE_AIR_DELAY ∧
    (PurpleAirSensor.updateAQI ⟨true, true, 1⟩ ⟨1200000, 0, -1, false⟩ 1200000 0 0).attemptedApi
      = false ∧
    (PurpleAirSensor.updateAQI ⟨true, true, 1⟩ ⟨1200000, 0, -1, false⟩ 1200000 0 0).state.lastApiCheckTime
      = 0 := by
  decide

/-- C1 (amended): whenever the local poll is skipped because no local
source is configured, or the local poll is attempted (configured and due)
and fails, then if the API source is configured and its interval has
elapsed, an API poll attempt is made and `lastApiCheckTime` is stamped
with the current time regardless of the attempt's outcome.  (When the
local source is configured but not yet due, the source makes no API
attempt; see the counterexample.) -/
theorem c1_amended_api_fallback (cfg : PurpleAirSensor.Config)
    (s : PurpleAirSensor.State) (t : Nat) (localResult apiResult : Int)
    (hapi : PurpleAirSensor.apiConfigured cfg = true)
    (hlocal : PurpleAirSensor.isLocalConfigured cfg = false ∨
      (PurpleAirSensor.isLocalConfigured cfg = true ∧
        sub32 t s.lastLocalCheckTime ≥ LOCAL_SENSOR_DELAY ∧ localResult < 0))
    (hdue : sub32 t s.lastApiCheckTime ≥ PURPLE_AIR_DELAY) :
    (PurpleAirSensor.updateAQI cfg s t localResult apiResult).attemptedApi
      = true ∧
    (PurpleAirSensor.updateAQI cfg s t localResult apiResult).state.lastApiCheckTime
      = t := by
  rcases hlocal with hnc | ⟨hc, hldue, hfail⟩
  · have hl' : ¬ (PurpleAirSensor.isLocalConfigured cfg
        ∧ sub32 t s.lastLocalCheckTime ≥ LOCAL_SENSOR_DELAY) := by
      simp [hnc]
    simp only [PurpleAirSensor.updateAQI, if_neg hl',
      PurpleAirSensor.updateApiPhase]
    have hcond : PurpleAirSensor.apiConfigured cfg
        ∧ (¬ PurpleAirSensor.isLocalConfigured cfg ∨ (false : Bool))
        ∧ sub32 t s.lastApiCheckTime ≥ PURPLE_AIR_DELAY := by
      refine ⟨by simp [hapi], Or.inl (by simp [hnc]), hdue⟩
    rw [if_pos hcond]
    split_ifs <;> simp
  · have hl' : PurpleAirSensor.isLocalConfigured cfg
        ∧ sub32 t s.lastLocalCheckTime ≥ LOCAL_SENSOR_DELAY := ⟨by simp [hc], hldue⟩
    have hnok : ¬ localResult ≥ 0 := not_le.mpr hfail
    simp only [PurpleAirSensor.updateAQI, if_pos hl', if_neg hnok,
      PurpleAirSensor.updateApiPhase]
    split_ifs with hcase h2 <;>
      first
        | exact absurd ⟨hapi, Or.inr trivial, hdue⟩ hcase
        | simp

/-- Witness for the amended C1: no local source configured, API configured
and due at `t = 1200000`, API poll fails (`-1`), yet the attempt is made
and the timestamp stamped. -/
theorem c1_witness :
    PurpleAirSensor.apiConfigured ⟨false, true, 1⟩ = true ∧
    (PurpleAirSensor.isLocalConfigured ⟨false, true, 1⟩ = false ∨
      (PurpleAirSensor.isLocalConfigured ⟨false, true, 1⟩ = true ∧
        sub32 1200000 (PurpleAirSensor.State.mk 0 0 (-1) false).lastLocalCheckTime
          ≥ LOCAL_SENSOR_DELAY ∧ (-1 : Int) < 0)) ∧
    sub32 1200000 (PurpleAirSensor.State.mk 0 0 (-1) false).lastApiCheckTime
      ≥ PURPLE_AIR_DELAY ∧
    ((PurpleAirSensor.updateAQI ⟨false, true, 1⟩ ⟨0, 0, -1, false⟩ 1200000 (-1) (-1)).attemptedApi
        = true ∧
      (PurpleAirSensor.updateAQI ⟨false, true, 1⟩ ⟨0, 0, -1, false⟩ 1200000 (-1) (-1)).state.lastApiCheckTime
        = 1200000) :=
  ⟨by decide, Or.inl (by decide), by decide,
    c1_amended_api_fallback ⟨false, true, 1⟩ ⟨0, 0, -1, false⟩ 1200000 (-1) (-1)
      (by decide) (Or.inl (by decide)) (by decide)⟩

set_option maxHeartbeats 3200000 in
/-- Monotonicity of the EPA breakpoint dispatch: each band has positive
slope and the value at the top of each band stays below the bottom index
of the next band. -/
theorem calculateAQI_mono (a b : ℚ) (hab : a ≤ b) :
    PurpleAirSensor.calculateAQI a ≤ PurpleAirSensor.calculateAQI b := by
  simp only [PurpleAirSensor.calculateAQI, PurpleAirSensor.linearInterpolation]
  norm_num
  split_ifs <;> linarith

/-- C9: `calculateAQI` is monotonically non-decreasing over all
concentrations, including across the band boundaries and through the gaps
between the spec's bands; in particular a concentration in `(12.0, 12.1]`
is handled by the extrapolated bottom band and yields a value slightly
above 50 rather than failing. -/
theorem c9_calculateAQI_monotone :
    (∀ a b : ℚ, a ≤ b →
      PurpleAirSensor.calculateAQI a ≤ PurpleAirSensor.calculateAQI b) ∧
    50 < PurpleAirSensor.calculateAQI 12.05 ∧
    PurpleAirSensor.calculateAQI 12.05 ≤ 51 :=
  ⟨fun a b hab => calculateAQI_mono a b hab,
    by norm_num [PurpleAirSensor.calculateAQI, PurpleAirSensor.linearInterpolation],
    by norm_num [PurpleAirSensor.calculateAQI, PurpleAirSensor.linearInterpolation]⟩

/-- Witness for C9 at the concrete pair `0 ≤ 1`. -/
theorem c9_witness :
    (0 : ℚ) ≤ 1 ∧
      PurpleAirSensor.calculateAQI 0 ≤ PurpleAirSensor.calculateAQI 1 :=
  ⟨by norm_num, c9_calculateAQI_monotone.1 0 1 (by norm_num)⟩

/-- C6: the exact point values of the AQI calculator, rejection of every
negative concentration to 0, and the global cap at 500. -/
theorem c6_point_values_and_cap :
    PurpleAirSensor.calculateAQI 0 = 0 ∧
    PurpleAirSensor.calculateAQI 12.0 = 50 ∧
    PurpleAirSensor.calculateAQI 35.4 = 100 ∧
    PurpleAirSensor.calculateAQI 55.4 = 150 ∧
    PurpleAirSensor.calculateAQI (-5) = 0 ∧
    (∀ pm : ℚ, pm < 0 → PurpleAirSensor.calculateAQI pm = 0) ∧
    (∀ pm : ℚ, PurpleAirSensor.calculateAQI pm ≤ 500) := by
  refine ⟨?_, ?_, ?_, ?_, ?_, ?_, ?_⟩
  · norm_num [PurpleAirSensor.calculateAQI, PurpleAirSensor.linearInterpolation]
  · norm_num [PurpleAirSensor.calculateAQI, PurpleAirSensor.linearInterpolation]
  · norm_num [PurpleAirSensor.calculateAQI, PurpleAirSensor.linearInterpolation]
  · norm_num [PurpleAirSensor.calculateAQI, PurpleAirSensor.linearInterpolation]
  · norm_num [PurpleAirSensor.calculateAQI, PurpleAirSensor.linearInterpolation]
  · intro pm hpm
    simp [PurpleAirSensor.calculateAQI, hpm]
  · intro pm
    simp only [PurpleAirSensor.calculateAQI, PurpleAirSensor.linearInterpolation]
    norm_num
    split_ifs <;> linarith

/-- Witness for C6 discharging the negative-concentration hypothesis at
`pm = -5`. -/
theorem c6_witness :
    (-5 : ℚ) < 0 ∧ PurpleAirSensor.calculateAQI (-5) = 0 :=
  ⟨by norm_num, c6_point_values_and_cap.2.2.2.2.2.1 (-5) (by norm_num)⟩

/-- C7 counterexample: with `trim = true` and the distinct endpoints given
in reversed order (`cLow = 1 > cHigh = 0`), the query point `cHigh` is
clamped up to `cLow` and the output is `iLow = 5`, not `iHigh = 7` as the
claim requires of every distinct-endpoint input. -/
theorem c7_counterexample :
    (1 : ℚ) ≠ 0 ∧
    PurpleAirSensor.linearInterpolation 1 0 5 7 0 true = 5 ∧
    PurpleAirSensor.linearInterpolation 1 0 5 7 0 true ≠ 7 := by
  norm_num [PurpleAirSensor.linearInterpolation]

/-- C7 (amended): the degenerate case `cHigh = cLow` performs no
interpolation and returns `iHigh` exactly when the possibly-trimmed query
point is `≥ cLow` (with `trim` set the trimmed point always is, so the
result is always `iHigh`); and for distinct endpoints the output at `cLow`
is `iLow` and at `cHigh` is `iHigh`, provided `cLow < cHigh` or `trim` is
unset — with `trim` set and the endpoints reversed the clamp moves the
query, see the counterexample. -/
theorem c7_amended_totality :
    (∀ c iL iH x : ℚ,
      PurpleAirSensor.linearInterpolation c c iL iH x false
        = if x ≥ c then iH else iL) ∧
    (∀ c iL iH x : ℚ,
      PurpleAirSensor.linearInterpolation c c iL iH x true = iH) ∧
    (∀ cL cH iL iH : ℚ, ∀ tr : Bool, cL < cH ∨ tr = false → cL ≠ cH →
      PurpleAirSensor.linearInterpolation cL cH iL iH cL tr = iL ∧
      PurpleAirSensor.linearInterpolation cL cH iL iH cH tr = iH) := by
  refine ⟨?_, ?_, ?_⟩
  · intro c iL iH x
    simp [PurpleAirSensor.linearInterpolation]
  · intro c iL iH x
    simp only [PurpleAirSensor.linearInterpolation, eq_self_iff_true,
      true_and, if_true]
    split_ifs <;> first | rfl | linarith
  · intro cL cH iL iH tr htr hne
    have hsub : cH - cL ≠ 0 := sub_ne_zero.mpr (Ne.symm hne)
    have hlt : tr = true → cL < cH := by
      rcases htr with h | h
      · exact fun _ => h
      · intro hT; rw [h] at hT; exact absurd hT (by simp)
    cases tr
    · constructor
      · simp only [PurpleAirSensor.linearInterpolation]
        norm_num [Ne.symm hne]
      · simp only [PurpleAirSensor.linearInterpolation]
        norm_num [Ne.symm hne]
        rw [div_mul_cancel₀ _ hsub]
        ring
    · have hcc : cL < cH := hlt rfl
      constructor
      · simp only [PurpleAirSensor.linearInterpolation]
        norm_num [Ne.symm hne, not_lt.mpr (le_of_lt hcc), lt_irrefl]
      · simp only [PurpleAirSensor.linearInterpolation]
        norm_num [Ne.symm hne, not_lt.mpr (le_of_lt hcc), lt_irrefl]
        rw [div_mul_cancel₀ _ hsub]
        ring

/-- A row rejected by the API data-row filters contributes nothing to the
running sum and count. -/
theorem apiDataStep_of_bad (pmIdx : Nat) (acc : ℚ × Nat)
    (row : Option (List PurpleAirSensor.JVal))
    (h : PurpleAirSensor.apiRowGood pmIdx row = false) :
    PurpleAirSensor.apiDataStep pmIdx acc row = acc := by
  rcases row with _ | cells
  · rfl
  · simp only [PurpleAirSensor.apiDataStep, PurpleAirSensor.apiRowGood] at h ⊢
    by_cases hlen : cells.length ≤ pmIdx
    · rw [if_pos hlen]
    · rw [if_neg hlen]
      have hlt : pmIdx < cells.length := lt_of_not_le hlen
      rcases hv : cells.getD pmIdx PurpleAirSensor.JVal.absent with _ | _ | q
      · simp [PurpleAirSensor.JVal.isNumber]
      · simp [PurpleAirSensor.JVal.isNumber]
      · rw [hv] at h
        simp only [Bool.and_eq_false_iff, decide_eq_false_iff_not, not_lt,
          not_le, PurpleAirSensor.JVal.isNumber,
          PurpleAirSensor.JVal.asDouble] at h
        rcases h with (hfalse | hfalse) | hneg
        · exact absurd hfalse hlen
        · exact absurd hfalse (by simp)
        · simp [PurpleAirSensor.JVal.isNumber, PurpleAirSensor.JVal.asDouble,
            hneg]

/-- Folding the API data-row accumulator over a row list visits exactly
the rows surviving the filters. -/
theorem apiData_foldl_filter (pmIdx : Nat) (rows : List (Option (List PurpleAirSensor.JVal))) :
    ∀ acc : ℚ × Nat,
      rows.foldl (PurpleAirSensor.apiDataStep pmIdx) acc
        = (rows.filter (PurpleAirSensor.apiRowGood pmIdx)).foldl
            (PurpleAirSensor.apiDataStep pmIdx) acc := by
  induction rows with
  | nil => intro acc; rfl
  | cons r rs ih =>
    intro acc
    by_cases hg : PurpleAirSensor.apiRowGood pmIdx r = true
    · rw [List.foldl_cons, List.filter_cons_of_pos hg, List.foldl_cons]
      exact ih _
    · have hg' : PurpleAirSensor.apiRowGood pmIdx r = false :=
        Bool.eq_false_iff.mpr hg
      rw [List.foldl_cons, List.filter_cons_of_neg (by simp [hg']),
        apiDataStep_of_bad pmIdx acc r hg']
      exact ih acc

/-- C3 counterexample: in the local JSON-array path, a record whose
`pm2.5_10minute` value is negative is NOT excluded — with a single record
carrying `-5`, the valid count is 1 and the extraction returns `-5`
instead of failing with no data. -/
theorem c3_counterexample :
    PurpleAirSensor.localArraySumCount []
        [⟨some 1, PurpleAirSensor.JVal.num (-5), PurpleAirSensor.JVal.absent⟩]
      = (-5, 1) ∧
    PurpleAirSensor.localArrayExtract []
        [⟨some 1, PurpleAirSensor.JVal.num (-5), PurpleAirSensor.JVal.absent⟩]
      = some (-5) := by
  constructor
  · norm_num [PurpleAirSensor.localArraySumCount, PurpleAirSensor.localArrayStep,
      PurpleAirSensor.useThisSensor, PurpleAirSensor.JVal.present,
      PurpleAirSensor.JVal.asDouble]
  · norm_num [PurpleAirSensor.localArrayExtract, PurpleAirSensor.localArraySumCount,
      PurpleAirSensor.localArrayStep, PurpleAirSensor.useThisSensor,
      PurpleAirSensor.JVal.present, PurpleAirSensor.JVal.asDouble]

/-- C3 (amended): only the API data-rows path excludes bad records — a row
that is not an array, is too short, or carries a non-numeric (null or
missing) or negative PM2.5 value contributes to neither the sum nor the
count; in all three averaging paths a zero valid count makes the
extraction fail with no data; but the local JSON-array and nested
`results` paths include every present `pm2.5_10minute`/`PM2_5Value`
member as-is, a negative value included (and a null one counted as 0). -/
theorem c3_amended_filtering :
    (∀ (pmIdx : Nat) (rows : List (Option (List PurpleAirSensor.JVal))),
      PurpleAirSensor.apiDataSumCount pmIdx rows
        = PurpleAirSensor.apiDataSumCount pmIdx
            (rows.filter (PurpleAirSensor.apiRowGood pmIdx))) ∧
    (∀ (pmIdx : Nat) (rows : List (Option (List PurpleAirSensor.JVal))),
      (PurpleAirSensor.apiDataSumCount pmIdx rows).2 = 0 →
        PurpleAirSensor.apiDataExtract pmIdx rows = none) ∧
    (∀ (ids : List Int) (recs : List PurpleAirSensor.SensorRecord),
      (PurpleAirSensor.localArraySumCount ids recs).2 = 0 →
        PurpleAirSensor.localArrayExtract ids recs = none) ∧
    (∀ (ids : List Int) (recs : List PurpleAirSensor.SensorRecord),
      (PurpleAirSensor.resultsSumCount ids recs).2 = 0 →
        PurpleAirSensor.resultsExtract ids recs = none) ∧
    (∀ (i : Int) (q : ℚ),
      PurpleAirSensor.localArrayExtract []
          [⟨some i, PurpleAirSensor.JVal.num q, PurpleAirSensor.JVal.absent⟩]
        = some q) ∧
    (∀ (i : Int) (q : ℚ),
      PurpleAirSensor.resultsExtract []
          [⟨some i, PurpleAirSensor.JVal.num q, PurpleAirSensor.JVal.absent⟩]
        = some q) := by
  refine ⟨?_, ?_, ?_, ?_, ?_, ?_⟩
  · intro pmIdx rows
    exact apiData_foldl_filter pmIdx rows (0, 0)
  · intro pmIdx rows h
    simp [PurpleAirSensor.apiDataExtract, h]
  · intro ids recs h
    simp [PurpleAirSensor.localArrayExtract, h]
  · intro ids recs h
    simp [PurpleAirSensor.resultsExtract, h]
  · intro i q
    norm_num [PurpleAirSensor.localArrayExtract, PurpleAirSensor.localArraySumCount,
      PurpleAirSensor.localArrayStep, PurpleAirSensor.useThisSensor,
      PurpleAirSensor.JVal.present, PurpleAirSensor.JVal.asDouble]
  · intro i q
    norm_num [PurpleAirSensor.resultsExtract, PurpleAirSensor.resultsSumCount,
      PurpleAirSensor.resultsStep, PurpleAirSensor.resultsUse,
      PurpleAirSensor.JVal.present, PurpleAirSensor.JVal.asDouble]

/-- Witness for the amended C3: a lone API data row holding `-1` is
filtered out, the valid count is 0, and the extraction fails. -/
theorem c3_witness :
    (PurpleAirSensor.apiDataSumCount 0 [some [PurpleAirSensor.JVal.num (-1)]]).2
      = 0 ∧
    PurpleAirSensor.apiDataExtract 0 [some [PurpleAirSensor.JVal.num (-1)]]
      = none :=
  ⟨by norm_num [PurpleAirSensor.apiDataSumCount, PurpleAirSensor.apiDataStep,
      PurpleAirSensor.JVal.isNumber, PurpleAirSensor.JVal.asDouble],
    c3_amended_filtering.2.1 0 [some [PurpleAirSensor.JVal.num (-1)]]
      (by norm_num [PurpleAirSensor.apiDataSumCount, PurpleAirSensor.apiDataStep,
        PurpleAirSensor.JVal.isNumber, PurpleAirSensor.JVal.asDouble])⟩

/-- Witness for the amended C7 at the concrete bottom band `(0, 0)`–`(12,
50)` with `trim` set. -/
theorem c7_witness :
    ((0 : ℚ) < 12 ∨ (true = false)) ∧ (0 : ℚ) ≠ 12 ∧
    PurpleAirSensor.linearInterpolation 0 12 0 50 0 true = 0 ∧
    PurpleAirSensor.linearInterpolation 0 12 0 50 12 true = 50 :=
  ⟨Or.inl (by norm_num), by norm_num,
    (c7_amended_totality.2.2 0 12 0 50 true (Or.inl (by norm_num)) (by norm_num)).1,
    (c7_amended_totality.2.2 0 12 0 50 true (Or.inl (by norm_num)) (by norm_num)).2⟩
